import Mathlib

/-!
Verification of the transcription-service core (`src/main.py`,
`src/app/db/repositories/tasks.py`, `src/models/model_manager.py`,
`src/middleware.py`) against its natural-language specification.

The embedding is shallow: each Python function relevant to the claims is
translated into an executable Lean definition over explicit state.

Modelling conventions, applied uniformly:
- Timestamps are UTC seconds as `Nat`; the `strftime` formatting of the
  source is presentation only and is elided.
- The SQL store is a `List Task`; rows keep insertion order; primary-key
  lookup is `List.find?` on the `id` column.
- Memory figures are exact rationals (`ℚ`); the source uses Python floats
  but only compares and adds values drawn from a small fixed table.
- `result_json` is kept structurally (`TranscriptResult`) instead of as a
  JSON string; `json.dumps`/`json.loads` are presentation only.
- Exceptions raised by external collaborators (the SQLite driver, the
  Transcriber) are abstracted as explicit outcome parameters.
- Log-message strings that only interpolate numbers for operator display
  keep a fixed prefix; no claim inspects them.
-/

namespace TranscriptionApi

/-- A transcript produced by the external Transcriber.  The source stores it
serialized as JSON in `Task.result_json` (`json.dumps` on write, `json.loads`
on read); the embedding keeps it structured. -/
structure TranscriptResult where
  duration : ℚ
  text : String
deriving DecidableEq, Repr

/-- A row of the `tasks` table (`src/app/db/models.py`, class `Task`).
`status` is the stored string exactly as in the DB column. -/
structure Task where
  id : String
  api_key : String
  status : String
  created_at : Nat
  started_at : Option Nat
  completed_at : Option Nat
  filename : String
  duration_sec : Option ℚ
  model_size : String
  has_diarization : Bool
  result_json : Option TranscriptResult
  error_message : Option String
deriving DecidableEq, Repr

/-- The persistent store of tasks (the `tasks` table). -/
abbrev Store := List Task

/-- Python truthiness of an `Optional[str]`: `None` and `""` are falsy. -/
def strTruthy : Option String → Bool
  | none => false
  | some s => !(s == "")

/-- Python truthiness of an `Optional[float]`: `None` and `0.0` are falsy. -/
def ratTruthy : Option ℚ → Bool
  | none => false
  | some q => !(q == 0)

/-- `TaskRepository.get_by_id` (src/app/db/repositories/tasks.py): first row
whose primary key matches. -/
def get_by_id (store : Store) (task_id : String) : Option Task :=
  store.find? (fun t => t.id == task_id)

/-- Committing a mutated row back through the session: every row with the
matching primary key is replaced by the new value. -/
def putTask (store : Store) (task_id : String) (t' : Task) : Store :=
  store.map (fun t => if t.id == task_id then t' else t)

/-- The row-level effect of `TaskRepository.update_status`: set the status;
set `error_message` when a truthy one is passed; set `started_at` the first
time the status becomes `processing` (Fix 7.13); set `completed_at` on any
terminal status. -/
def applyUpdateStatus (t : Task) (status : String) (error_message : Option String)
    (now : Nat) : Task :=
  let t1 : Task := { t with status := status }
  let t2 : Task :=
    if strTruthy error_message then { t1 with error_message := error_message } else t1
  let t3 : Task :=
    if status == "processing" && t2.started_at == none then
      { t2 with started_at := some now }
    else t2
  if status == "completed" || status == "failed" || status == "cancelled" then
    { t3 with completed_at := some now }
  else t3

/-- `TaskRepository.update_status`: load the row, apply the update, commit.
Returns the refreshed row (or `none` when the task does not exist) together
with the new store.  Note: the source performs no transition validation. -/
def update_status (store : Store) (task_id : String) (status : String)
    (error_message : Option String) (now : Nat) : Option Task × Store :=
  match get_by_id store task_id with
  | none => (none, store)
  | some task =>
    let task := applyUpdateStatus task status error_message now
    (some task, putTask store task_id task)

/-- `TaskRepository.mark_completed`: unconditionally set `completed` and
`completed_at`; store `duration_sec` / `result_json` only when truthy. -/
def mark_completed (store : Store) (task_id : String) (duration_sec : Option ℚ)
    (result_json : Option TranscriptResult) (now : Nat) : Option Task × Store :=
  match get_by_id store task_id with
  | none => (none, store)
  | some task =>
    let t1 : Task := { task with status := "completed", completed_at := some now }
    let t2 : Task := if ratTruthy duration_sec then { t1 with duration_sec := duration_sec } else t1
    let t3 : Task :=
      match result_json with
      | some r => { t2 with result_json := some r }
      | none => t2
    (some t3, putTask store task_id t3)

/-- `TaskRepository.mark_failed`: unconditionally set `failed`,
`completed_at` and the error message. -/
def mark_failed (store : Store) (task_id : String) (error_message : String)
    (now : Nat) : Option Task × Store :=
  match get_by_id store task_id with
  | none => (none, store)
  | some task =>
    let t1 : Task :=
      { task with status := "failed", completed_at := some now,
                  error_message := some error_message }
    (some t1, putTask store task_id t1)

/-- `TaskRepository.claim_for_processing`: atomic
`UPDATE tasks SET status='processing', started_at=now WHERE id=? AND
status='queued'`; returns whether the rowcount was positive. -/
def claim_for_processing (store : Store) (task_id : String) (now : Nat) :
    Bool × Store :=
  let rowcount := store.countP (fun t => t.id == task_id && t.status == "queued")
  let store' := store.map (fun t =>
    if t.id == task_id && t.status == "queued" then
      { t with status := "processing", started_at := some now }
    else t)
  (decide (0 < rowcount), store')

/-- The WHERE clause shared by the page query and the count query of
`TaskRepository.get_by_api_key_paginated`: rows of the key, optionally
filtered by status (Python truthiness on the status filter). -/
def taskFilter (api_key : String) (status : Option String) (t : Task) : Bool :=
  t.api_key == api_key &&
    (if strTruthy status then t.status == status.getD "" else true)

/-- `ORDER BY created_at DESC`. -/
def newestFirst (a b : Task) : Bool := decide (b.created_at ≤ a.created_at)

/-- `TaskRepository.get_by_api_key_paginated`: total count under the filter,
then the newest-first page `OFFSET offset LIMIT limit`. -/
def get_by_api_key_paginated (store : Store) (api_key : String)
    (limit offset : Nat) (status : Option String) : List Task × Nat :=
  let filtered := store.filter (taskFilter api_key status)
  let total := filtered.length
  let page := ((filtered.mergeSort newestFirst).drop offset).take limit
  (page, total)

/-- The pydantic `TaskStatus` response model of `src/main.py` (renamed here to
avoid clashing with the status enum).  `created_at`/`started_at`/`completed_at`
are formatted timestamps in the source; kept as seconds here. -/
structure TaskView where
  task_id : String
  status : String
  created_at : Nat
  started_at : Option Nat
  completed_at : Option Nat
  progress : Nat
  result : Option TranscriptResult
  error : Option String
  file_name : String
  language : String
  model_size : String
  use_diarization : Bool
  api_key : Option String
deriving DecidableEq, Repr

/-- Conversion of a stored `Task` row into the `TaskStatus` view, as built
identically in `load_task_status`, `list_tasks` and `get_my_tasks`
(src/main.py): synthetic progress 0/100, hardcoded language "uk", and the
owning `api_key` copied into the view. -/
def taskToView (t : Task) : TaskView :=
  { task_id := t.id
    status := t.status
    created_at := t.created_at
    started_at := t.started_at
    completed_at := t.completed_at
    progress := if t.status == "completed" then 100 else 0
    result := t.result_json
    error := t.error_message
    file_name := t.filename
    language := "uk"
    model_size := t.model_size
    use_diarization := t.has_diarization
    api_key := some t.api_key }

/-- `load_task_status` (src/main.py): read the row and convert it, or `none`. -/
def load_task_status (store : Store) (task_id : String) : Option TaskView :=
  (get_by_id store task_id).map taskToView

/-- `save_task_status` (src/main.py).  A failure of the underlying SQLite
session makes the whole block raise; `dbFails` abstracts that outcome.  With
`raise_on_error=False` the exception is swallowed; with `True` it propagates —
the returned `Bool` says whether the call raised.  For an existing row the
source runs `update_status` and then `mark_completed`/`mark_failed` depending
on the view's status; for a missing row it creates a fresh `queued`-style row
via `TaskRepository.create` (with the view's status). -/
def save_task_status (store : Store) (dbFails : Bool) (task_id : String)
    (view : TaskView) (now : Nat) : Store × Bool :=
  if dbFails then (store, true)
  else
    match get_by_id store task_id with
    | some _ =>
      let store1 := (update_status store task_id view.status view.error now).2
      let store2 :=
        if view.status == "completed" && view.result.isSome then
          let duration := (view.result.map TranscriptResult.duration).getD 0
          (mark_completed store1 task_id (some duration) view.result now).2
        else if view.status == "failed" && strTruthy view.error then
          (mark_failed store1 task_id (view.error.getD "") now).2
        else store1
      (store2, false)
    | none =>
      let key := if strTruthy view.api_key then view.api_key.getD "" else "unknown"
      let t : Task :=
        { id := task_id, api_key := key, status := view.status,
          created_at := now, started_at := none, completed_at := none,
          filename := view.file_name, duration_sec := none,
          model_size := view.model_size, has_diarization := view.use_diarization,
          result_json := none, error_message := none }
      (store ++ [t], false)

/-! ## ModelManager (src/models/model_manager.py) -/

/-- `MODEL_MEMORY_REQUIREMENTS`: approximate per-size RAM cost in GB. -/
def MODEL_MEMORY_REQUIREMENTS : List (String × ℚ) :=
  [("tiny", 1/2), ("base", 4/5), ("small", 6/5), ("medium", 5/2),
   ("large", 9/2), ("large-v2", 9/2), ("large-v3", 9/2)]

/-- `MODEL_MEMORY_REQUIREMENTS.get(model_size, default)`. -/
def memReq (model_size : String) (default : ℚ) : ℚ :=
  (MODEL_MEMORY_REQUIREMENTS.lookup model_size).getD default

/-- `MEMORY_SAFETY_MARGIN_GB = 0.5`. -/
def MEMORY_SAFETY_MARGIN_GB : ℚ := 1/2

/-- The ModelManager state the claims depend on: the size of the loaded model,
if any.  In the source `_model` and `_model_info` are set and cleared
together, so one `Option` captures both. -/
abbrev MgrState := Option String

/-- The memory credited back for the currently loaded model:
`MODEL_MEMORY_REQUIREMENTS.get(current_size, 0)` when loaded, else 0. -/
def currentCost : MgrState → ℚ
  | some s => memReq s 0
  | none => 0

/-- `ModelManager.can_load_model`: pure read of manager state and OS memory;
no side effects.  Numeric figures interpolated into the reason strings are
elided (no claim inspects them). -/
def can_load_model (loaded : MgrState) (available_memory : ℚ) (strict : Bool)
    (model_size : String) : Bool × String :=
  let required_memory := memReq model_size 2
  if loaded == some model_size then (true, "Model already loaded")
  else
    let effective_available := available_memory + currentCost loaded
    let needed := required_memory + MEMORY_SAFETY_MARGIN_GB
    if effective_available < needed then
      if strict then (false, "Insufficient memory")
      else (true, "Warning: Insufficient memory")
    else (true, "OK")

/-! ## Intake: POST /transcribe (src/main.py, transcribe_audio_file) -/

/-- The model-size whitelist of the endpoint. -/
def model_size_enum : List String :=
  ["tiny", "base", "small", "medium", "large", "auto"]

/-- Outcome of one POST /transcribe request: the HTTP response (error status
plus detail, or the ok task id), the store, the queue length, the (untouched)
ModelManager state and whether the staged temp file still exists when the
handler returns. -/
structure IntakeOutcome where
  response : Except (Nat × String) String
  store : Store
  queue_size : Nat
  mgr : MgrState
  temp_file_exists : Bool
deriving Repr

/-- `transcribe_audio_file` (src/main.py).  In source order: validate that
exactly one of file/url is present; validate the model size; memory-gate via
`can_load_model` unless "auto" (507, before any staging); stage the input into
a fresh temp file; build the `queued` view, cache it in `tasks`, persist it
with `raise_on_error=True` (a persist failure is answered 500 and the
`HTTPException`/generic handlers delete the temp file); only then check
`task_queue.qsize() >= 20` (503, temp file deleted, the persisted row NOT
removed); finally enqueue the handle.  The in-memory `tasks` cache is not
modelled here; uuid generation is abstracted by the `task_id` argument. -/
def transcribe_audio_file (store : Store) (queue_size : Nat) (mgr : MgrState)
    (available_memory : ℚ) (strict : Bool) (hasFile hasUrl : Bool)
    (language model_size : String) (use_diarization : Bool)
    (api_key task_id filename : String) (persistFails : Bool) (now : Nat) :
    IntakeOutcome :=
  if !hasFile && !hasUrl then
    ⟨.error (400, "Either a file or URL must be provided"), store, queue_size, mgr, false⟩
  else if hasFile && hasUrl then
    ⟨.error (400, "Provide either a file or a URL, not both"), store, queue_size, mgr, false⟩
  else if !(model_size_enum.contains model_size) then
    ⟨.error (400, "Model size must be one of: tiny, base, small, medium, large, auto"),
      store, queue_size, mgr, false⟩
  else if model_size != "auto" && !(can_load_model mgr available_memory strict model_size).1 then
    ⟨.error (507, "Insufficient memory for model"), store, queue_size, mgr, false⟩
  else
    let view : TaskView :=
      { task_id := task_id, status := "queued", created_at := now,
        started_at := none, completed_at := none, progress := 0, result := none,
        error := none, file_name := filename, language := language,
        model_size := model_size, use_diarization := use_diarization,
        api_key := some api_key }
    let saved := save_task_status store persistFails task_id view now
    if saved.2 then
      ⟨.error (500, "Internal server error"), saved.1, queue_size, mgr, false⟩
    else if 20 ≤ queue_size then
      ⟨.error (503, "Server overloaded. Please try again later."), saved.1, queue_size, mgr, false⟩
    else
      ⟨.ok task_id, saved.1, queue_size + 1, mgr, true⟩

/-! ## Worker (src/main.py, process_transcription_task_sync and worker) -/

/-- What one run of `process_transcription_task_sync` did: the store it left
behind, the final in-memory view of the task, whether the staged file was
deleted (the `os.unlink` call was reached), and whether usage was logged for
the key (`some success-flag`) or not at all (`none`). -/
structure SyncEffects where
  store : Store
  mem : TaskView
  file_deleted : Bool
  usage_logged : Option Bool
deriving DecidableEq, Repr

/-- `process_transcription_task_sync` (src/main.py).  `memView` is the cached
`tasks[task_id]` entry; `transcribe` abstracts the Transcriber call (`.ok`
result or `.error message`); the three `*SaveFails` flags abstract SQLite
failures at the three `save_task_status` call sites.  Source order:

1. status := processing, started_at := now, save with `raise_on_error=False`
   (a failure is swallowed);
2. transcribe; on success set completed, save with `raise_on_error=True`
   (Fix 7.14) and — only if that save returned — log usage success and delete
   the staged file;
3. any exception (a Transcriber error, or the step-2 persist failure) lands in
   the generic handler: set failed with the exception text, best-effort save,
   log usage failure, and delete the staged file.

`"db error"` stands for `str(e)` of the raised persist exception (only its
non-emptiness matters). -/
def process_transcription_task_sync (store : Store) (memView : TaskView)
    (task_id : String) (transcribe : Except String TranscriptResult)
    (processingSaveFails completedSaveFails failedSaveFails : Bool)
    (now : Nat) : SyncEffects :=
  let v1 : TaskView :=
    { memView with status := "processing", started_at := some now, progress := 10 }
  let s1 := (save_task_status store processingSaveFails task_id v1 now).1
  match transcribe with
  | .ok result =>
    let v2 : TaskView :=
      { v1 with status := "completed", completed_at := some now, progress := 100,
                result := some result }
    let saved := save_task_status s1 completedSaveFails task_id v2 now
    if !saved.2 then
      { store := saved.1, mem := v2, file_deleted := true, usage_logged := some true }
    else
      let v3 : TaskView := { v2 with status := "failed", completed_at := some now,
                                     error := some "db error" }
      let s3 := (save_task_status saved.1 failedSaveFails task_id v3 now).1
      { store := s3, mem := v3, file_deleted := true, usage_logged := some false }
  | .error msg =>
    let v3 : TaskView := { v1 with status := "failed", completed_at := some now,
                                   error := some msg }
    let s3 := (save_task_status s1 failedSaveFails task_id v3 now).1
    { store := s3, mem := v3, file_deleted := true, usage_logged := some false }

/-- The stored timeout message (src/main.py line 446, Ukrainian for
"Exceeded processing time (2 hours)"). -/
def timeoutMessage : String := "Перевищено час обробки (2 години)"

/-- Outcome of the worker's timeout branch. -/
structure TimeoutOutcome where
  store : Store
  mem : Option TaskView
  file_deleted : Bool
  usage_logged : Option Bool
deriving DecidableEq, Repr

/-- The `asyncio.TimeoutError` branch of `worker` (src/main.py lines 438-457):
`mark_failed` in the DB with the timeout message (a DB failure there is caught
and only logged — `dbFails`), update the in-memory cache entry if present, and
`task_done()`.  The branch contains no usage-logging call and no staged-file
deletion; `file_deleted`/`usage_logged` record that. -/
def worker_timeout_handler (store : Store) (dbFails : Bool)
    (mem : Option TaskView) (task_id : String) (now : Nat) : TimeoutOutcome :=
  let store' := if dbFails then store else (mark_failed store task_id timeoutMessage now).2
  let mem' := mem.map (fun v =>
    { v with status := "failed", error := some timeoutMessage, completed_at := some now })
  { store := store', mem := mem', file_deleted := false, usage_logged := none }

/-! ## Query and cancel endpoints (src/main.py) -/

/-- `get_task_status` — GET /task/{task_id}.  The handler takes no credential
(there is no auth dependency on this route): its inputs are only the in-memory
cache, the store and the path parameter. -/
def get_task_status (memTasks : List (String × TaskView)) (store : Store)
    (task_id : String) : Except (Nat × String) TaskView :=
  match memTasks.lookup task_id with
  | some v => .ok v
  | none =>
    match load_task_status store task_id with
    | some v => .ok v
    | none => .error (404, "Task not found")

/-- `cancel_task` — DELETE /task/{task_id}.  The handler receives the caller's
verified `api_key` but never reads it.  It loads the task (the in-memory cache
falls back to, and is then identical to, the stored view — modelled directly
from the store), rejects `completed`/`processing`/`failed`, and otherwise sets
`cancelled` with `completed_at` and saves (swallowing DB errors: `dbFails`). -/
def cancel_task (store : Store) (task_id : String) (api_key : String)
    (dbFails : Bool) (now : Nat) : Except (Nat × String) (Store × String) :=
  match load_task_status store task_id with
  | none => .error (404, "Task not found")
  | some view =>
    if view.status == "completed" then .error (400, "Task already completed")
    else if view.status == "processing" then
      .error (400, "Task already processing and cannot be cancelled")
    else if view.status == "failed" then .error (400, "Task already failed")
    else
      let view' : TaskView := { view with status := "cancelled", completed_at := some now }
      let store' := (save_task_status store dbFails task_id view' now).1
      .ok (store', s!"Task {task_id} was cancelled")

/-- The JSON body of GET /my-tasks. -/
structure MyTasksResponse where
  tasks : List TaskView
  total : Nat
  limit : Nat
  offset : Nat
  has_more : Bool
  status_filter : Option String
deriving DecidableEq, Repr

/-- `get_my_tasks` — GET /my-tasks (src/main.py): cap the limit at 200
(negative offsets, also rejected 400 in the source, are unrepresentable in
`Nat`), ask the repository for `limit + 1` rows to derive `has_more`, trim. -/
def get_my_tasks (store : Store) (api_key : String) (limit offset : Nat)
    (status : Option String) : Except (Nat × String) MyTasksResponse :=
  if 200 < limit then .error (400, "Maximum limit is 200")
  else
    let paged := get_by_api_key_paginated store api_key (limit + 1) offset status
    let has_more := decide (limit < paged.1.length)
    let db_tasks := if has_more then paged.1.take limit else paged.1
    .ok { tasks := db_tasks.map taskToView, total := paged.2, limit := limit,
          offset := offset, has_more := has_more, status_filter := status }

/-- Sequential composition of K `claim_for_processing` attempts on one task:
the list of their results.  Because each claim is a single atomic UPDATE,
K concurrent attempts serialize into exactly such a sequence. -/
def claimResults : Nat → Store → String → Nat → List Bool
  | 0, _, _, _ => []
  | k + 1, store, task_id, now =>
    let r := claim_for_processing store task_id now
    r.1 :: claimResults k r.2 task_id now

/-! ## Concrete fixtures used by counterexamples and witnesses -/

/-- A freshly created queued task row. -/
def sampleQueued : Task :=
  { id := "t1", api_key := "k1", status := "queued", created_at := 0,
    started_at := none, completed_at := none, filename := "a.wav",
    duration_sec := none, model_size := "tiny", has_diarization := false,
    result_json := none, error_message := none }

/-- The same task after a successful run. -/
def sampleCompleted : Task :=
  { sampleQueued with status := "completed", started_at := some 1,
                      completed_at := some 2,
                      result_json := some { duration := 10, text := "hello" } }

/-- The same task while a worker processes it. -/
def sampleProcessing : Task :=
  { sampleQueued with status := "processing", started_at := some 1 }

/-- The same task after a cancel. -/
def sampleCancelled : Task :=
  { sampleQueued with status := "cancelled", completed_at := some 2 }

/-- The in-memory `tasks[...]` view of `sampleQueued` as the intake builds it. -/
def sampleView : TaskView :=
  { task_id := "t1", status := "queued", created_at := 0, started_at := none,
    completed_at := none, progress := 0, result := none, error := none,
    file_name := "a.wav", language := "uk", model_size := "tiny",
    use_diarization := false, api_key := some "k1" }

/-- Worker run on `sampleQueued` in which transcription succeeds, the
`completed` persist raises, and the subsequent best-effort `failed` persist
goes through (the DB came back). -/
def persistFailureRun : SyncEffects :=
  process_transcription_task_sync [sampleQueued] sampleView "t1"
    (.ok { duration := 10, text := "hello" }) false true false 50

/-- A POST /transcribe against an empty store with the queue already at the
soft limit of 20 (valid upload, tiny model which is already the loaded one,
lenient memory mode). -/
def overloadedIntakeRun : IntakeOutcome :=
  transcribe_audio_file [] 20 (some "tiny") 100 false true false "uk" "tiny"
    false "k1" "t1" "a.wav" false 3

/-- The worker timeout branch fired for `sampleProcessing`. -/
def timeoutRun : TimeoutOutcome :=
  worker_timeout_handler [sampleProcessing] false none "t1" 9

/-! ## Helper lemmas -/

/-- A found row satisfies the key predicate. -/
theorem get_by_id_id {store : Store} {task_id : String} {t : Task}
    (h : get_by_id store task_id = some t) : t.id = task_id := by
  have := List.find?_some h
  simpa [beq_iff_eq] using this

/-- Writing a row back under the key it carries makes it the row the next
lookup returns. -/
theorem get_by_id_putTask {store : Store} {task_id : String} {t t' : Task}
    (h : get_by_id store task_id = some t) (hid : t'.id = task_id) :
    get_by_id (putTask store task_id t') task_id = some t' := by
  induction store with
  | nil => simp [get_by_id] at h
  | cons a as ih =>
    by_cases ha : (a.id == task_id) = true
    · have hmap : putTask (a :: as) task_id t' = t' :: putTask as task_id t' := by
        unfold putTask
        rw [List.map_cons, if_pos ha]
      rw [hmap]
      unfold get_by_id
      rw [List.find?_cons_of_pos _ (by simp [hid])]
    · have hmap : putTask (a :: as) task_id t' = a :: putTask as task_id t' := by
        unfold putTask
        rw [List.map_cons, if_neg ha]
      have h' : get_by_id as task_id = some t := by
        unfold get_by_id at h
        rwa [List.find?_cons_of_neg _ (by simpa using ha)] at h
      rw [hmap]
      unfold get_by_id
      rw [List.find?_cons_of_neg _ (by simpa using ha)]
      exact ih h'

theorem applyUpdateStatus_id (t : Task) (s : String) (e : Option String) (n : Nat) :
    (applyUpdateStatus t s e n).id = t.id := by
  simp only [applyUpdateStatus]
  split_ifs <;> rfl

theorem applyUpdateStatus_status (t : Task) (s : String) (e : Option String) (n : Nat) :
    (applyUpdateStatus t s e n).status = s := by
  simp only [applyUpdateStatus]
  split_ifs <;> rfl

theorem applyUpdateStatus_completed_at (t : Task) (s : String) (e : Option String)
    (n : Nat) (hs : s = "completed" ∨ s = "failed" ∨ s = "cancelled") :
    (applyUpdateStatus t s e n).completed_at = some n := by
  simp only [applyUpdateStatus]
  have hb : (s == "completed" || s == "failed" || s == "cancelled") = true := by
    rcases hs with h | h | h <;> simp [h]
  rw [if_pos hb]

/-! ## C4 — state-machine validation in the Store -/

/-- C4 counterexample: `update_status` happily moves a `completed` (terminal)
task back to `processing`; the illegal transition is not rejected. -/
theorem completed_task_moved_back_to_processing :
    ((update_status [sampleCompleted] "t1" "processing" none 5).2.map Task.status)
      = ["processing"] := by
  rfl

/-- C4 (amended): the Store's status updates perform no transition validation
at all — for every existing task, `update_status` sets whatever status is
requested, and `mark_completed`/`mark_failed` set their terminal status,
regardless of the current status (terminal ones included); only
`claim_for_processing` guards on the current status. -/
theorem store_status_updates_perform_no_validation (store : Store)
    (task_id : String) (t : Task) (h : get_by_id store task_id = some t)
    (status : String) (err : Option String) (msg : String) (dur : Option ℚ)
    (res : Option TranscriptResult) (now : Nat) :
    (∃ t', (update_status store task_id status err now).1 = some t' ∧ t'.status = status)
    ∧ (∃ t', (mark_completed store task_id dur res now).1 = some t' ∧ t'.status = "completed")
    ∧ (∃ t', (mark_failed store task_id msg now).1 = some t' ∧ t'.status = "failed") := by
  refine ⟨?_, ?_, ?_⟩
  · unfold update_status
    rw [h]
    exact ⟨_, rfl, applyUpdateStatus_status t status err now⟩
  · unfold mark_completed
    rw [h]
    refine ⟨_, rfl, ?_⟩
    cases res <;> split_ifs <;> rfl
  · unfold mark_failed
    rw [h]
    exact ⟨_, rfl, rfl⟩

/-- Witness for C4's amended theorem at a concrete terminal-status store. -/
theorem store_status_updates_perform_no_validation_witness :
    ∃ t', (update_status [sampleCompleted] "t1" "processing" none 5).1 = some t'
      ∧ t'.status = "processing" :=
  (store_status_updates_perform_no_validation [sampleCompleted] "t1"
    sampleCompleted rfl "processing" none "boom" none none 5).1

/-! ## Cancel semantics (C5, C10) -/

/-- The cancel endpoint's accept/reject decision depends only on the current
status: exactly `completed`, `processing` and `failed` are rejected. -/
theorem cancel_task_isOk_iff {store : Store} {task_id : String} (k : String)
    (dbFails : Bool) (now : Nat) {t : Task} (h : get_by_id store task_id = some t) :
    (cancel_task store task_id k dbFails now).isOk = true ↔
      ¬(t.status = "completed" ∨ t.status = "processing" ∨ t.status = "failed") := by
  have hload : load_task_status store task_id = some (taskToView t) := by
    unfold load_task_status
    rw [h]
    rfl
  unfold cancel_task
  rw [hload]
  dsimp only [taskToView]
  by_cases h1 : t.status = "completed"
  · simp [h1, Except.isOk, Except.toBool]
  · by_cases h2 : t.status = "processing"
    · simp [h1, h2, Except.isOk, Except.toBool]
    · by_cases h3 : t.status = "failed"
      · simp [h1, h2, h3, Except.isOk, Except.toBool]
      · simp [h1, h2, h3, Except.isOk, Except.toBool]

/-- On a task that is not in a rejected status, the cancel endpoint persists
the row updated to `cancelled` (through `save_task_status`/`update_status`). -/
theorem cancel_task_queued_eq {store : Store} {task_id : String} (k : String)
    (now : Nat) {t : Task} (h : get_by_id store task_id = some t)
    (h1 : t.status ≠ "completed") (h2 : t.status ≠ "processing")
    (h3 : t.status ≠ "failed") :
    cancel_task store task_id k false now =
      .ok (putTask store task_id (applyUpdateStatus t "cancelled" t.error_message now),
           s!"Task {task_id} was cancelled") := by
  have hload : load_task_status store task_id = some (taskToView t) := by
    unfold load_task_status
    rw [h]
    rfl
  unfold cancel_task
  rw [hload]
  dsimp only [taskToView]
  rw [if_neg (by simp [h1]), if_neg (by simp [h2]), if_neg (by simp [h3])]
  unfold save_task_status update_status
  rw [h]
  rfl

/-- C5 counterexample: DELETE /task on an already-`cancelled` task succeeds
again, although its current status is not `queued`. -/
theorem cancel_succeeds_on_cancelled_task :
    sampleCancelled.status ≠ "queued"
    ∧ (cancel_task [sampleCancelled] "t1" "k1" false 9).isOk = true :=
  ⟨by decide, rfl⟩

/-- C5 (amended): for an existing task, CancelTask rejects exactly the
statuses `completed`, `processing` and `failed` — so it succeeds on `queued`
and also, idempotently, on an already-`cancelled` task; on a queued task the
persisted row ends `cancelled` with `completed_at` set. -/
theorem cancel_task_semantics (store : Store) (task_id k : String) (t : Task)
    (dbFails : Bool) (now : Nat) (h : get_by_id store task_id = some t) :
    ((cancel_task store task_id k dbFails now).isOk = true ↔
      ¬(t.status = "completed" ∨ t.status = "processing" ∨ t.status = "failed"))
    ∧ (t.status = "queued" →
        ∃ store' msg t', cancel_task store task_id k false now = .ok (store', msg)
          ∧ get_by_id store' task_id = some t'
          ∧ t'.status = "cancelled" ∧ t'.completed_at = some now) := by
  constructor
  · exact cancel_task_isOk_iff k dbFails now h
  · intro hq
    have h1 : t.status ≠ "completed" := by simp [hq]
    have h2 : t.status ≠ "processing" := by simp [hq]
    have h3 : t.status ≠ "failed" := by simp [hq]
    refine ⟨_, _, _, cancel_task_queued_eq k now h h1 h2 h3,
      get_by_id_putTask h (by rw [applyUpdateStatus_id]; exact get_by_id_id h),
      applyUpdateStatus_status t "cancelled" t.error_message now,
      applyUpdateStatus_completed_at t "cancelled" t.error_message now
        (Or.inr (Or.inr rfl))⟩

/-- Witness for C5's amended theorem on a concrete queued task. -/
theorem cancel_task_semantics_witness :
    ∃ store' msg t', cancel_task [sampleQueued] "t1" "k1" false 9 = .ok (store', msg)
      ∧ get_by_id store' "t1" = some t'
      ∧ t'.status = "cancelled" ∧ t'.completed_at = some 9 :=
  (cancel_task_semantics [sampleQueued] "t1" "k1" sampleQueued false 9 rfl).2 rfl

/-- C10: the cancel handler never reads the caller's key: its result is
literally independent of the authenticated key, and a queued task owned by a
different key is cancelled successfully. -/
theorem cancel_ignores_task_ownership (store : Store) (task_id k k' : String)
    (t : Task) (dbFails : Bool) (now : Nat) (h : get_by_id store task_id = some t)
    (hq : t.status = "queued") (_hk : t.api_key ≠ k) :
    cancel_task store task_id k dbFails now = cancel_task store task_id k' dbFails now
    ∧ (cancel_task store task_id k dbFails now).isOk = true := by
  refine ⟨rfl, ?_⟩
  rw [cancel_task_isOk_iff k dbFails now h]
  simp [hq]

/-- Witness for C10 on a concrete queued task owned by a different key. -/
theorem cancel_ignores_task_ownership_witness :
    cancel_task [sampleQueued] "t1" "k2" false 9 = cancel_task [sampleQueued] "t1" "k9" false 9
    ∧ (cancel_task [sampleQueued] "t1" "k2" false 9).isOk = true :=
  cancel_ignores_task_ownership [sampleQueued] "t1" "k2" "k9" sampleQueued false 9
    rfl rfl (by decide)

/-! ## C3 — worker timeout branch -/

/-- C3 counterexample: when the 2-hour timeout fires for a concrete processing
task, the worker stores the Ukrainian message (not
"Exceeded processing time (2 hours)"), logs no usage at all, and does not
delete the staged input file. -/
theorem timeout_branch_actual_effects :
    timeoutRun.usage_logged = none
    ∧ timeoutRun.file_deleted = false
    ∧ ((get_by_id timeoutRun.store "t1").map Task.error_message)
        = some (some timeoutMessage)
    ∧ timeoutMessage ≠ "Exceeded processing time (2 hours)" :=
  ⟨rfl, rfl, rfl, by decide⟩

/-- C3 (amended): for every task the timeout branch of the worker marks the
task `failed` in the Store with the fixed (Ukrainian) timeout message and sets
`completed_at`; it performs no usage logging and no staged-file deletion (the
detached executor thread may eventually do both on its own). -/
theorem timeout_marks_failed_without_cleanup (store : Store) (mem : Option TaskView)
    (task_id : String) (t : Task) (now : Nat) (h : get_by_id store task_id = some t) :
    (∃ t', get_by_id (worker_timeout_handler store false mem task_id now).store task_id
        = some t'
      ∧ t'.status = "failed" ∧ t'.error_message = some timeoutMessage
      ∧ t'.completed_at = some now)
    ∧ (worker_timeout_handler store false mem task_id now).usage_logged = none
    ∧ (worker_timeout_handler store false mem task_id now).file_deleted = false := by
  refine ⟨?_, rfl, rfl⟩
  have hstore : (worker_timeout_handler store false mem task_id now).store
      = putTask store task_id
          { t with status := "failed", completed_at := some now,
                   error_message := some timeoutMessage } := by
    unfold worker_timeout_handler mark_failed
    rw [h]
    rfl
  rw [hstore]
  refine ⟨{ t with status := "failed", completed_at := some now, error_message := some timeoutMessage }, ?_, rfl, rfl, rfl⟩
  have ht : t.id = task_id := get_by_id_id h
  have hid : Task.id { t with status := "failed", completed_at := some now, error_message := some timeoutMessage } = task_id := ht
  exact get_by_id_putTask h hid

/-- Witness for C3's amended theorem on a concrete processing task. -/
theorem timeout_marks_failed_without_cleanup_witness :
    (∃ t', get_by_id (worker_timeout_handler [sampleProcessing] false none "t1" 9).store "t1"
        = some t'
      ∧ t'.status = "failed" ∧ t'.error_message = some timeoutMessage
      ∧ t'.completed_at = some 9)
    ∧ (worker_timeout_handler [sampleProcessing] false none "t1" 9).usage_logged = none
    ∧ (worker_timeout_handler [sampleProcessing] false none "t1" 9).file_deleted = false :=
  timeout_marks_failed_without_cleanup [sampleProcessing] none "t1" sampleProcessing 9 rfl

/-! ## C9 — GET /task/{id} exposes the owning API key without auth -/

/-- C9: `get_task_status` takes no credential (the route has no auth
dependency) and, for every stored task not shadowed by the in-memory cache,
returns the full view whose `api_key` field is the owning tenant's key. -/
theorem get_task_status_exposes_api_key (mem : List (String × TaskView))
    (store : Store) (task_id : String) (t : Task)
    (hmem : mem.lookup task_id = none) (h : get_by_id store task_id = some t) :
    get_task_status mem store task_id = .ok (taskToView t)
    ∧ (taskToView t).api_key = some t.api_key := by
  constructor
  · unfold get_task_status
    rw [hmem]
    unfold load_task_status
    rw [h]
    rfl
  · rfl

/-- Witness for C9 at a concrete store with an empty cache. -/
theorem get_task_status_exposes_api_key_witness :
    get_task_status [] [sampleQueued] "t1" = .ok (taskToView sampleQueued)
    ∧ (taskToView sampleQueued).api_key = some sampleQueued.api_key :=
  get_task_status_exposes_api_key [] [sampleQueued] "t1" sampleQueued rfl rfl

/-! ## C6 — strict memory gating -/

/-- C6: in strict mode, when the requested size is not the loaded one, a
request whose effective available memory (OS-available plus the credit for
the currently loaded model) is strictly below the requested model's cost plus
the 0.5 GB margin is refused by `can_load_model`, and POST /transcribe rejects
it with 507 with the store, queue and ModelManager state unchanged (the gate
is a pure read of the manager); if the loaded model already has the requested
size, the request is admitted. -/
theorem strict_memory_gating (mgr : MgrState) (avail : ℚ)
    (S lang ak tid fn : String) (store : Store) (qs : Nat) (dia pf : Bool)
    (now : Nat) :
    (mgr = some S → (can_load_model mgr avail true S).1 = true)
    ∧ (mgr ≠ some S →
        avail + currentCost mgr < memReq S 2 + MEMORY_SAFETY_MARGIN_GB →
        (can_load_model mgr avail true S).1 = false
        ∧ (S ∈ model_size_enum → S ≠ "auto" →
            transcribe_audio_file store qs mgr avail true true false lang S dia
                ak tid fn pf now
              = ⟨.error (507, "Insufficient memory for model"), store, qs, mgr, false⟩)) := by
  constructor
  · intro hsame
    unfold can_load_model
    rw [if_pos (by simp [hsame])]
  · intro hdiff hlt
    have hfst : (can_load_model mgr avail true S).1 = false := by
      simp only [can_load_model]
      rw [if_neg (by simp [hdiff]), if_pos hlt, if_pos trivial]
    refine ⟨hfst, fun hS hauto => ?_⟩
    unfold transcribe_audio_file
    rw [if_neg (by simp), if_neg (by simp), if_neg (by simp [hS]),
        if_pos (by simp [hauto, hfst])]

/-- Witness for C6 with no model loaded, zero available memory and a `large`
request in strict mode. -/
theorem strict_memory_gating_witness :
    (can_load_model none 0 true "large").1 = false
    ∧ transcribe_audio_file [] 0 none 0 true true false "uk" "large" false
        "k1" "t1" "a.wav" false 3
      = ⟨.error (507, "Insufficient memory for model"), [], 0, none, false⟩ := by
  have h := (strict_memory_gating none 0 "large" "uk" "k1" "t1" "a.wav" [] 0
    false false 3).2 (by simp)
    (by
      have h1 : memReq "large" 2 = 9/2 := rfl
      have h2 : currentCost none = 0 := rfl
      have h3 : MEMORY_SAFETY_MARGIN_GB = 1/2 := rfl
      rw [h1, h2, h3]
      norm_num)
  exact ⟨h.1, h.2 (by simp [model_size_enum]) (by decide)⟩

/-! ## C1 — persist failure on the worker's success path -/

/-- C1: concrete worker run in which transcription succeeds but persisting
`completed` raises (the later best-effort `failed` persist goes through):
the staged file IS deleted, the persisted status ends up `failed` (not
`processing`), and usage is logged as a failure — against the claim and
against the source's own "delete the file ONLY after a successful DB save"
comment (Fix 7.14). -/
theorem persist_failure_success_path_effects :
    persistFailureRun.file_deleted = true
    ∧ ((get_by_id persistFailureRun.store "t1").map Task.status) = some "failed"
    ∧ persistFailureRun.usage_logged = some false :=
  ⟨rfl, rfl, rfl⟩

/-! ## C2 — queue-overload rejection and the Task row -/

/-- C2 counterexample: with the queue at the soft limit (20), a valid
submission is rejected 503 — but the Task row had already been persisted
before the admission check and survives in `queued`. -/
theorem overload_rejection_keeps_task_row :
    overloadedIntakeRun.response
      = .error (503, "Server overloaded. Please try again later.")
    ∧ ((get_by_id overloadedIntakeRun.store "t1").map Task.status) = some "queued" :=
  ⟨rfl, rfl⟩

/-- C2 (amended): whenever the admission guard rejects a fresh valid
submission with 503 (queue size at or above 20), the rejection happens after
the persist: the Task row exists afterwards in status `queued` (only the
staged temp file is deleted). -/
theorem queue_overload_rejects_after_persist (store : Store) (qs : Nat)
    (mgr : MgrState) (avail : ℚ) (strict : Bool) (lang S ak tid fn : String)
    (dia : Bool) (now : Nat) (hq : 20 ≤ qs) (hS : S ∈ model_size_enum)
    (hload : (can_load_model mgr avail strict S).1 = true)
    (hnew : get_by_id store tid = none) (hak : ak ≠ "") :
    transcribe_audio_file store qs mgr avail strict true false lang S dia ak
        tid fn false now
      = ⟨.error (503, "Server overloaded. Please try again later."),
         store ++ [{ id := tid, api_key := ak, status := "queued", created_at := now, started_at := none, completed_at := none, filename := fn, duration_sec := none, model_size := S, has_diarization := dia, result_json := none, error_message := none }],
         qs, mgr, false⟩ := by
  unfold transcribe_audio_file
  rw [if_neg (by simp), if_neg (by simp), if_neg (by simp [hS]),
      if_neg (by simp [hload])]
  unfold save_task_status
  rw [hnew]
  simp [hq, strTruthy, hak]

/-- Witness for C2's amended theorem on a concrete saturated queue. -/
theorem queue_overload_rejects_after_persist_witness :
    transcribe_audio_file [] 20 (some "tiny") 100 false true false "uk" "tiny"
        false "k1" "t2" "a.wav" false 3
      = ⟨.error (503, "Server overloaded. Please try again later."),
         [] ++ [{ id := "t2", api_key := "k1", status := "queued", created_at := 3, started_at := none, completed_at := none, filename := "a.wav", duration_sec := none, model_size := "tiny", has_diarization := false, result_json := none, error_message := none }],
         20, some "tiny", false⟩ :=
  queue_overload_rejects_after_persist [] 20 (some "tiny") 100 false "uk"
    "tiny" "k1" "t2" "a.wav" false 3 (by norm_num) (by simp [model_size_enum])
    rfl rfl (by decide)

/-! ## C8 — ClaimForProcessing -/

/-- The claim succeeds exactly when a row with the id is currently `queued`. -/
theorem claim_fst_iff (store : Store) (task_id : String) (now : Nat) :
    (claim_for_processing store task_id now).1 = true ↔
      ∃ t ∈ store, t.id = task_id ∧ t.status = "queued" := by
  unfold claim_for_processing
  simp [List.countP_pos_iff, Bool.and_eq_true, beq_iff_eq]

/-- When no row matches the WHERE clause, the UPDATE touches nothing. -/
theorem claim_snd_of_no_queued (store : Store) (task_id : String) (now : Nat)
    (h : ∀ t ∈ store, ¬(t.id = task_id ∧ t.status = "queued")) :
    (claim_for_processing store task_id now).2 = store := by
  unfold claim_for_processing
  conv_rhs => rw [← List.map_id store]
  apply List.map_congr_left
  intro t ht
  show (if (t.id == task_id && t.status == "queued") = true then _ else t) = id t
  rw [if_neg, id]
  intro hc
  exact h t ht (by simpa [Bool.and_eq_true, beq_iff_eq] using hc)

/-- After a claim no row with the id is left `queued`. -/
theorem claim_snd_no_queued_left (store : Store) (task_id : String) (now : Nat) :
    ∀ t' ∈ (claim_for_processing store task_id now).2,
      ¬(t'.id = task_id ∧ t'.status = "queued") := by
  unfold claim_for_processing
  intro t' ht'
  obtain ⟨t, ht, rfl⟩ := List.mem_map.mp ht'
  by_cases hc : (t.id == task_id && t.status == "queued") = true
  · rw [if_pos hc]
    rintro ⟨-, hs⟩
    simp at hs
  · rw [if_neg hc]
    rintro ⟨h1, h2⟩
    exact hc (by simp [Bool.and_eq_true, beq_iff_eq, h1, h2])

/-- Every claim attempt on a store with no matching queued row reports false
and changes nothing, so a whole sequence of them yields no `true`. -/
theorem claimResults_count_zero (task_id : String) (now : Nat) :
    ∀ (K : Nat) (store : Store),
      (∀ t ∈ store, ¬(t.id = task_id ∧ t.status = "queued")) →
      (claimResults K store task_id now).count true = 0 := by
  intro K
  induction K with
  | zero => intro store _; rfl
  | succ k ih =>
    intro store h
    have hfst : (claim_for_processing store task_id now).1 = false := by
      rw [← Bool.not_eq_true, claim_fst_iff store task_id now]
      rintro ⟨t, ht, hc⟩
      exact h t ht hc
    have hsnd := claim_snd_of_no_queued store task_id now h
    show ((claim_for_processing store task_id now).1 ::
        claimResults k (claim_for_processing store task_id now).2 task_id now).count true = 0
    rw [hfst, hsnd]
    simpa using ih store h

/-- C8: `claim_for_processing` returns true exactly when the task exists in
`queued` status; a failed claim leaves the store untouched; a successful claim
moves the matched queued row to `processing` with `started_at := now`; and any
sequence of K ≥ 1 serialized claim attempts on a task that starts `queued`
reports exactly one success. -/
theorem claim_for_processing_contract (store : Store) (task_id : String)
    (now K : Nat) :
    ((claim_for_processing store task_id now).1 = true ↔
      ∃ t ∈ store, t.id = task_id ∧ t.status = "queued")
    ∧ ((claim_for_processing store task_id now).1 = false →
        (claim_for_processing store task_id now).2 = store)
    ∧ (∀ t ∈ store, t.id = task_id → t.status = "queued" →
        ({ t with status := "processing", started_at := some now } : Task)
          ∈ (claim_for_processing store task_id now).2)
    ∧ (1 ≤ K → (∃ t ∈ store, t.id = task_id ∧ t.status = "queued") →
        (claimResults K store task_id now).count true = 1) := by
  refine ⟨claim_fst_iff store task_id now, ?_, ?_, ?_⟩
  · intro hfalse
    apply claim_snd_of_no_queued
    intro t ht hc
    have htrue := (claim_fst_iff store task_id now).mpr ⟨t, ht, hc⟩
    rw [hfalse] at htrue
    exact Bool.false_ne_true htrue
  · intro t ht hid hst
    show _ ∈ (claim_for_processing store task_id now).2
    unfold claim_for_processing
    refine List.mem_map.mpr ⟨t, ht, ?_⟩
    rw [if_pos (by simp [Bool.and_eq_true, beq_iff_eq, hid, hst])]
  · intro hK hex
    obtain ⟨k, rfl⟩ : ∃ k, K = k + 1 := ⟨K - 1, by omega⟩
    show ((claim_for_processing store task_id now).1 ::
        claimResults k (claim_for_processing store task_id now).2 task_id now).count true = 1
    rw [(claim_fst_iff store task_id now).mpr hex]
    have hrest := claimResults_count_zero task_id now k
      (claim_for_processing store task_id now).2
      (claim_snd_no_queued_left store task_id now)
    simp [List.count_cons, hrest]

/-- Witness for C8: three serialized claim attempts on one queued task yield
exactly one success. -/
theorem claim_for_processing_contract_witness :
    (claimResults 3 [sampleQueued] "t1" 7).count true = 1 :=
  (claim_for_processing_contract [sampleQueued] "t1" 7 3).2.2.2 (by norm_num)
    ⟨sampleQueued, by simp, rfl, rfl⟩

/-! ## C7 — pagination of GET /my-tasks -/

/-- `newestFirst` is transitive. -/
theorem newestFirst_trans (a b c : Task) (hab : newestFirst a b = true)
    (hbc : newestFirst b c = true) : newestFirst a c = true := by
  simp only [newestFirst, decide_eq_true_eq] at *
  omega

/-- `newestFirst` is total. -/
theorem newestFirst_total (a b : Task) :
    (newestFirst a b || newestFirst b a) = true := by
  simp only [newestFirst, Bool.or_eq_true, decide_eq_true_eq]
  omega

/-- C7: for every store, key, limit L ≤ 200, offset and status filter,
GET /my-tasks returns at most L rows sorted newest-first, `total` equal to the
full count of the key's rows under the same filter, and
`has_more = (total > offset + L)`. -/
theorem get_my_tasks_pagination (store : Store) (key : String) (L O : Nat)
    (status : Option String) (hL : L ≤ 200) :
    ∃ resp, get_my_tasks store key L O status = .ok resp
      ∧ resp.tasks.length ≤ L
      ∧ resp.total = (store.filter (taskFilter key status)).length
      ∧ (resp.has_more = true ↔ O + L < resp.total)
      ∧ resp.tasks.Pairwise (fun a b => b.created_at ≤ a.created_at) := by
  unfold get_my_tasks get_by_api_key_paginated
  rw [if_neg (by omega)]
  dsimp only
  refine ⟨_, rfl, ?_, rfl, ?_, ?_⟩
  · -- at most L rows after the has_more trim
    rw [List.length_map]
    by_cases hm : L <
        ((((store.filter (taskFilter key status)).mergeSort newestFirst).drop O).take (L + 1)).length
    · rw [if_pos (by simpa using hm), List.length_take]
      omega
    · rw [if_neg (by simpa using hm)]
      omega
  · -- has_more = (total > O + L)
    dsimp only
    rw [decide_eq_true_eq, List.length_take, List.length_drop,
      List.length_mergeSort]
    rw [Nat.lt_min]
    omega
  · -- newest-first ordering survives drop/take/trim and the view map
    dsimp only
    have hsorted : List.Pairwise (fun a b => newestFirst a b = true)
        ((store.filter (taskFilter key status)).mergeSort newestFirst) :=
      List.sorted_mergeSort newestFirst_trans newestFirst_total
        (store.filter (taskFilter key status))
    have hsorted' : List.Pairwise (fun a b : Task => b.created_at ≤ a.created_at)
        ((store.filter (taskFilter key status)).mergeSort newestFirst) :=
      hsorted.imp (fun h => by simpa [newestFirst] using h)
    have hpagesub :
        ((((store.filter (taskFilter key status)).mergeSort newestFirst).drop O).take (L + 1)).Sublist
          ((store.filter (taskFilter key status)).mergeSort newestFirst) :=
      (List.take_sublist _ _).trans (List.drop_sublist _ _)
    have htrimsub :
        (if decide (L < ((((store.filter (taskFilter key status)).mergeSort newestFirst).drop O).take (L + 1)).length) = true
          then ((((store.filter (taskFilter key status)).mergeSort newestFirst).drop O).take (L + 1)).take L
          else (((store.filter (taskFilter key status)).mergeSort newestFirst).drop O).take (L + 1)).Sublist
          ((store.filter (taskFilter key status)).mergeSort newestFirst) := by
      split_ifs
      · exact (List.take_sublist _ _).trans hpagesub
      · exact hpagesub
    rw [List.pairwise_map]
    exact List.Pairwise.sublist htrimsub hsorted'

/-- Witness for C7 at a concrete one-task store with limit 1. -/
theorem get_my_tasks_pagination_witness :
    ∃ resp, get_my_tasks [sampleQueued] "k1" 1 0 none = .ok resp
      ∧ resp.tasks.length ≤ 1
      ∧ resp.total = ([sampleQueued].filter (taskFilter "k1" none)).length
      ∧ (resp.has_more = true ↔ 0 + 1 < resp.total)
      ∧ resp.tasks.Pairwise (fun a b => b.created_at ≤ a.created_at) :=
  get_my_tasks_pagination [sampleQueued] "k1" 1 0 none (by norm_num)

end TranscriptionApi
